import Mathlib

/-!
Verification of the issue-creation pipeline of `create_issues.py`
(repository `Scalable-Process-Agent-System`).

The Python script is shallowly embedded here:

* The specific `re` patterns used by `parse_yaml_tasks` are embedded as
  executable functions on `List Char` (`reSearch`, `keyValMatcher`,
  `sectionMatcher`, `descriptionMatcher`, `pyMatchFirstLine`), reproducing
  CPython `re.search` semantics for exactly those patterns: leftmost
  occurrence of the literal prefix, greedy `\s*` with backtracking,
  non-greedy capture up to a lookahead literal or `$` (where `$` also
  matches just before a trailing newline), and retry at the next literal
  occurrence when the tail of the pattern fails.  `\s` is embedded as
  `Char.isWhitespace` (space, tab, CR, LF); Python additionally treats
  `\f`, `\v` and some Unicode characters as whitespace, none of which the
  patterns or documents here depend on.
* File I/O, `subprocess.run` of the `gh` CLI, and `sys.exit` are made
  explicit: the file content is an `Except` value, the external command is
  an oracle `GhOracle`, and `main` returns its exit code, the final content
  of the summary file and the fatal error message (if any).
-/

set_option maxRecDepth 100000

namespace CreateIssues

/-! ## Text primitives mirroring the CPython `re` behaviour -/

/-- Suffix of `hay` that follows the leftmost occurrence of `lit`
(`none` when `lit` does not occur). -/
def dropAfterFirst (lit : List Char) : List Char → Option (List Char)
  | [] => none
  | c :: rest =>
    if lit.isPrefixOf (c :: rest) then some ((c :: rest).drop lit.length)
    else dropAfterFirst lit rest

/-- `re.search` for a pattern `lit ++ tail`: try the leftmost occurrence of
the literal `lit`; if the tail of the pattern (the `matcher`) fails there,
retry at the next occurrence.  `fuel` bounds the number of retries; callers
pass `hay.length + 1`, which is always enough since every retry consumes at
least one character. -/
def reSearch (matcher : List Char → Option (List Char)) (lit : List Char) :
    Nat → List Char → Option (List Char)
  | 0, _ => none
  | fuel + 1, hay =>
    match dropAfterFirst lit hay with
    | none => none
    | some rest =>
      match matcher rest with
      | some g => some g
      | none => reSearch matcher lit fuel rest

/-- Greedy `\s*` followed by a mandatory non-newline character: the suffix of
`rest` where the capture group of `\s*([^\n]+)` (equivalently `\s*(.+)`
without `DOTALL`) starts.  Greedily skips the whitespace run; if `rest` is
whitespace only, backtracks to the last character that is not a newline. -/
def wsStartSuffix (rest : List Char) : Option (List Char) :=
  let j := (rest.takeWhile Char.isWhitespace).length
  if j < rest.length then some (rest.drop j)
  else
    let k := (rest.reverse.takeWhile (fun c => c = '\n')).length
    if k < rest.length then some (rest.drop (rest.length - k - 1)) else none

/-- The capture group of `\s*([^\n]+)`, as used by the patterns for
`project`, `owner`, `goal`, `title`, `deliverables` and `date`. -/
def keyValMatcher (rest : List Char) : Option (List Char) :=
  (wsStartSuffix rest).map (List.takeWhile (fun c => c ≠ '\n'))

/-- `\s*\n`: greedy whitespace run that must end at a newline; returns the
suffix after the last newline inside the whitespace run (the greedy match
with backtracking). -/
def wsNewlineSuffix (rest : List Char) : Option (List Char) :=
  let pre := rest.takeWhile Char.isWhitespace
  let t := (pre.reverse.takeWhile (fun c => c ≠ '\n')).length
  if t = pre.length then none else some (rest.drop (pre.length - t))

/-- Non-greedy `(.*?)` (with `DOTALL`) up to the lookahead `(?=stop|$)`:
the capture stops at the first occurrence of `stop`, at a trailing newline,
or at the end of input (`$` matches both at the end and just before a final
newline). -/
def captureUpto (stop : Option (List Char)) : List Char → List Char
  | [] => []
  | c :: rest =>
    if (match stop with | some st => st.isPrefixOf (c :: rest) | none => false) then []
    else if c = '\n' ∧ rest = [] then []
    else c :: captureUpto stop rest

/-- The capture group of the section patterns
`phases:\s*\n(.*?)(?=milestones:|$)`, `tasks:\s*\n(.*?)(?=\n  - name:|$)`
and `milestones:\s*\n(.*?)$` (all with `DOTALL`). -/
def sectionMatcher (stop : Option (List Char)) (rest : List Char) : Option (List Char) :=
  (wsNewlineSuffix rest).map (captureUpto stop)

/-- The non-greedy continuation `(?:\n[^\n]*)*?(?=stop|$)` of the
description pattern: starting at a line boundary, keep consuming whole
lines until the lookahead literal starts or the input ends (modulo one
trailing newline, matched by `$`).  Structural recursion on a fuel bound
(callers pass the input length, always sufficient since every step consumes
at least one character) keeps the function kernel-reducible. -/
def descMore (stop : List Char) : Nat → List Char → List Char
  | _, [] => []
  | 0, _ => []
  | fuel + 1, c :: rest =>
    if stop.isPrefixOf (c :: rest) then []
    else if c = '\n' ∧ rest = [] then []
    else
      c :: ((rest.takeWhile (fun x => x ≠ '\n')) ++
        descMore stop fuel (rest.drop (rest.takeWhile (fun x => x ≠ '\n')).length))

/-- The capture group `([^\n]+(?:\n[^\n]*)*?)` starting at `s`: the rest of
the current line, then `descMore`. -/
def descCapture (stop : List Char) (s : List Char) : List Char :=
  let line := s.takeWhile (fun x => x ≠ '\n')
  line ++ descMore stop s.length (s.drop line.length)

/-- The capture group of
`description:\s*([^\n]+(?:\n[^\n]*)*?)(?=\n      - id:|$)` (with `DOTALL`)
after the literal `description:`. -/
def descriptionMatcher (stop : List Char) (rest : List Char) : Option (List Char) :=
  (wsStartSuffix rest).map (descCapture stop)

/-- `re.search(key + r':\s*([^\n]+)', s)` (same group as with `(.+)`). -/
def pySearchKeyVal (key s : String) : Option String :=
  (reSearch keyValMatcher (key ++ ":").toList (s.toList.length + 1) s.toList).map String.mk

/-- `re.search(header + r':\s*\n(.*?)(?=stop|$)', s, re.DOTALL)`
(`stop = none` embeds the pattern without a lookahead literal,
i.e. `(.*?)$`). -/
def pySearchSection (header : String) (stop : Option String) (s : String) : Option String :=
  (reSearch (sectionMatcher (stop.map String.toList)) (header ++ ":").toList
    (s.toList.length + 1) s.toList).map String.mk

/-- `re.search(r'description:\s*([^\n]+(?:\n[^\n]*)*?)(?=\n      - id:|$)', s, re.DOTALL)`. -/
def pySearchDescription (s : String) : Option String :=
  (reSearch (descriptionMatcher ("\n      - id:").toList) ("description:").toList
    (s.toList.length + 1) s.toList).map String.mk

/-- `re.search(r'^([^\n]+)', s)`: without `re.MULTILINE` the anchor only
matches at position 0, so the match exists iff `s` starts with a
non-newline character; the group is the maximal non-newline prefix. -/
def pyMatchFirstLine (s : String) : Option String :=
  match s.toList with
  | [] => none
  | c :: rest => if c = '\n' then none else some (String.mk ((c :: rest).takeWhile (fun x => x ≠ '\n')))

/-- Python `str.strip()`: remove leading and trailing whitespace. -/
def pyStrip (s : String) : String :=
  String.mk (((s.toList.dropWhile Char.isWhitespace).reverse.dropWhile
    Char.isWhitespace).reverse)

/-- `re.split` on a non-empty literal separator: cut at every non-overlapping
occurrence, scanning left to right.  Fuel-based structural recursion
(callers pass the input length, always sufficient). -/
def pySplitGo (sep : List Char) : Nat → List Char → List (List Char)
  | _, [] => [[]]
  | 0, l => [l]
  | fuel + 1, c :: rest =>
    if sep.isPrefixOf (c :: rest) then
      [] :: pySplitGo sep fuel ((c :: rest).drop sep.length)
    else
      match pySplitGo sep fuel rest with
      | [] => [[c]]
      | h :: t => (c :: h) :: t

/-- `re.split(sep, s)` for the literal block separators of
`parse_yaml_tasks`. -/
def pySplitOn (s sep : String) : List String :=
  (pySplitGo sep.toList s.toList.length s.toList).map String.mk

/-- `m.group(1).strip()` when the search matched, `''` otherwise (the
record fields are initialised to `''` and only overwritten on a match). -/
def matchGroupD (m : Option String) : String :=
  match m with
  | some v => pyStrip v
  | none => ""

/-! ## Data model (`parse_yaml_tasks`, lines 17–22, 45, 68, 100) -/

/-- The task dict `{'id': ..., 'title': ..., 'description': ...}`. -/
structure Task where
  id : String
  title : String
  description : String
deriving Repr, DecidableEq

/-- The phase dict `{'name': ..., 'goal': ..., 'tasks': [...]}`. -/
structure Phase where
  name : String
  goal : String
  tasks : List Task
deriving Repr, DecidableEq

/-- The milestone dict `{'id': ..., 'title': ..., 'deliverables': ..., 'date': ...}`. -/
structure Milestone where
  id : String
  title : String
  deliverables : String
  date : String
deriving Repr, DecidableEq

/-- The top-level dict built by `parse_yaml_tasks` (line 17-22); all four
keys are always present. -/
structure TasksData where
  project : String
  owner : String
  phases : List Phase
  milestones : List Milestone
deriving Repr, DecidableEq

/-! ## Document extractor (`parse_yaml_tasks`, lines 11–124) -/

/-- Lines 68–80: build one task record from a block produced by the split on
`\n      - id:`. -/
def parseTaskBlock (b : String) : Task :=
  { id := matchGroupD (pyMatchFirstLine b)
    title := matchGroupD (pySearchKeyVal "title" b)
    description := matchGroupD (pySearchDescription b) }

/-- Lines 62–83: split the tasks section on `\n      - id:`, skip block 0,
and keep a record iff both `id` and `title` are truthy (non-empty). -/
def parseTasksContent (tasks_content : String) : List Task :=
  let task_blocks := pySplitOn tasks_content "\n      - id:"
  (task_blocks.drop 1).foldl
    (fun acc b =>
      let t := parseTaskBlock b
      if t.id ≠ "" ∧ t.title ≠ "" then acc ++ [t] else acc) []

/-- Lines 45–84: build one phase record from a block produced by the split
on `\n  - name:`. -/
def parsePhaseBlock (block : String) : Phase :=
  { name := matchGroupD (pyMatchFirstLine block)
    goal := matchGroupD (pySearchKeyVal "goal" block)
    tasks :=
      match pySearchSection "tasks" (some "\n  - name:") block with
      | some g => parseTasksContent g
      | none => [] }

/-- Lines 39–86: split the phases section on `\n  - name:`, skip block 0,
and keep a phase iff its `name` is truthy (non-empty). -/
def parsePhasesContent (phases_content : String) : List Phase :=
  ((pySplitOn phases_content "\n  - name:").drop 1).foldl
    (fun acc b =>
      let p := parsePhaseBlock b
      if p.name ≠ "" then acc ++ [p] else acc) []

/-- Lines 100–115: build one milestone record from a block produced by the
split on `\n  - id:`. -/
def parseMilestoneBlock (b : String) : Milestone :=
  { id := matchGroupD (pyMatchFirstLine b)
    title := matchGroupD (pySearchKeyVal "title" b)
    deliverables := matchGroupD (pySearchKeyVal "deliverables" b)
    date := matchGroupD (pySearchKeyVal "date" b) }

/-- Lines 94–118: split the milestones section on `\n  - id:`, skip block 0,
and keep a record iff both `id` and `title` are truthy. -/
def parseMilestonesContent (milestones_content : String) : List Milestone :=
  ((pySplitOn milestones_content "\n  - id:").drop 1).foldl
    (fun acc b =>
      let m := parseMilestoneBlock b
      if m.id ≠ "" ∧ m.title ≠ "" then acc ++ [m] else acc) []

/-- Lines 17–120: the whole extraction from the raw document text. -/
def parseContent (content : String) : TasksData :=
  { project := matchGroupD (pySearchKeyVal "project" content)
    owner := matchGroupD (pySearchKeyVal "owner" content)
    phases :=
      match pySearchSection "phases" (some "milestones:") content with
      | some g => parsePhasesContent g
      | none => []
    milestones :=
      match pySearchSection "milestones" none content with
      | some g => parseMilestonesContent g
      | none => [] }

/-- Lines 11–124 of `parse_yaml_tasks`: the argument is the result of
reading the file (`.error e` when `open`/`read` raises with message `e`);
on failure the function prints `Error loading tasks file: ...` and calls
`sys.exit(1)`, which we surface as the `.error` case. -/
def parse_yaml_tasks (file : Except String String) : Except String TasksData :=
  match file with
  | .error e => .error ("Error loading tasks file: " ++ e)
  | .ok content => .ok (parseContent content)

/-! ## Record formatter and submission client
(`create_github_issue`, lines 126–191, and `create_milestone_issues`,
lines 193–242) -/

/-- The dict `project_info` built in `main` (lines 248–251). -/
structure ProjectInfo where
  project : String
  owner : String
deriving Repr, DecidableEq

/-- The argument vector passed to `gh issue create` (lines 174–179 and
224–229): `--title`, `--body` and the comma-joined `--label` argument. -/
structure GhCmd where
  title : String
  body : String
  labels : String
deriving Repr, DecidableEq

/-- Outcome of `subprocess.run(cmd, capture_output=True, text=True,
check=True)`: a zero exit status with the captured standard output, or a
non-zero exit status (raised as `CalledProcessError`) with the captured
standard error. -/
inductive GhResult where
  | ok (stdout : String)
  | err (stderr : String)
deriving Repr, DecidableEq

/-- The external `gh` command, §6 of the spec: an opaque collaborator that
maps an argument vector to an outcome. -/
def GhOracle := GhCmd → GhResult

/-- The Python containment test `pat in s` on strings: `pat` occurs as a
contiguous substring of `s`. -/
def strContains (s pat : String) : Bool :=
  (dropAfterFirst pat.toList s.toList).isSome

/-- Lines 154–171: the label list for a task, decided by an if/elif chain
of substring tests on the phase name, starting from the base `["task"]`. -/
def taskLabels (phase_name : String) : List String :=
  "task" ::
    (if strContains phase_name "Epic 1" then ["epic-1", "control-plane", "api"]
    else if strContains phase_name "Epic 2" then ["epic-2", "node-runtime", "connectors"]
    else if strContains phase_name "Epic 3" then ["epic-3", "agent-definition", "deployment"]
    else if strContains phase_name "Epic 4" then ["epic-4", "observability", "monitoring"]
    else if strContains phase_name "Epic 5" then ["epic-5", "ui", "frontend"]
    else if strContains phase_name "Epic 6" then ["epic-6", "infrastructure", "ci-cd"]
    else if strContains phase_name "Epic 7" then ["epic-7", "testing", "validation"]
    else if strContains phase_name "Epic 8" then ["epic-8", "documentation", "demo"]
    else [])

/-- Lines 132–152: the issue body template for a task. -/
def taskBody (task : Task) (phase_name : String) (project_info : ProjectInfo) : String :=
  "## Task Description\n" ++ task.description ++
  "\n\n## Epic/Phase\n**" ++ phase_name ++
  "**\n\n## Project Context\n- **Project:** " ++ project_info.project ++
  "\n- **Owner:** " ++ project_info.owner ++
  "\n- **Task ID:** " ++ task.id ++
  "\n\n## Acceptance Criteria\n- [ ] Implementation complete\n- [ ] Unit tests written\n- [ ] Integration tests passing\n- [ ] Documentation updated\n- [ ] Code reviewed and approved\n\n---\n*This issue was auto-generated from tasks.yaml*\n"

/-- Lines 129 and 174–179: the full `gh issue create` argument vector for a
task. -/
def taskIssueCmd (task : Task) (phase_name : String) (project_info : ProjectInfo) : GhCmd :=
  { title := "[" ++ task.id ++ "] " ++ task.title
    body := taskBody task phase_name project_info
    labels := String.intercalate "," (taskLabels phase_name) }

/-- Lines 181–191: run the command; on success return the stripped stdout
(the issue URL), on `CalledProcessError` log and return `None`. -/
def create_github_issue (gh : GhOracle) (task : Task) (phase_name : String)
    (project_info : ProjectInfo) : Option String :=
  match gh (taskIssueCmd task phase_name project_info) with
  | .ok stdout => some (pyStrip stdout)
  | .err _ => none

/-- `milestone.get(key, dflt)` on the milestone dict built at lines
100–115: that dict has exactly the keys `id`, `title`, `deliverables` and
`date`, so any other key yields the default. -/
def Milestone.getD (m : Milestone) (key dflt : String) : String :=
  if key = "id" then m.id
  else if key = "title" then m.title
  else if key = "deliverables" then m.deliverables
  else if key = "date" then m.date
  else dflt

/-- Lines 200–222: the issue body template for a milestone; the overview
line is `milestone.get('description', 'Milestone for project phase
completion')`. -/
def milestoneBody (m : Milestone) (project_info : ProjectInfo) : String :=
  "## Milestone Overview\n" ++ m.getD "description" "Milestone for project phase completion" ++
  "\n\n## Deliverables\n" ++ m.deliverables ++
  "\n\n## Target Date\n**" ++ m.date ++
  "**\n\n## Project Context\n- **Project:** " ++ project_info.project ++
  "\n- **Owner:** " ++ project_info.owner ++
  "\n- **Milestone ID:** " ++ m.id ++
  "\n\n## Completion Criteria\n- [ ] All related tasks completed\n- [ ] Deliverables validated\n- [ ] Documentation updated\n- [ ] Demo/review completed\n\n---\n*This milestone was auto-generated from tasks.yaml*\n"

/-- Lines 198 and 224–229: the full `gh issue create` argument vector for a
milestone; the label argument is the literal `"milestone,epic"`. -/
def milestoneIssueCmd (m : Milestone) (project_info : ProjectInfo) : GhCmd :=
  { title := "[MILESTONE] " ++ m.title
    body := milestoneBody m project_info
    labels := "milestone,epic" }

/-- Lines 193–242: submit every milestone in order, collecting the stripped
stdout of the successful ones; failures are logged and skipped. -/
def create_milestone_issues (gh : GhOracle) (milestones : List Milestone)
    (project_info : ProjectInfo) : List String :=
  milestones.foldl
    (fun acc m =>
      match gh (milestoneIssueCmd m project_info) with
      | .ok stdout => acc ++ [pyStrip stdout]
      | .err _ => acc) []

/-! ## Batch orchestrator (`main`, lines 244–296) -/

/-- The record appended to `created_issues` on success (lines 268–272). -/
structure CreatedIssue where
  task_id : String
  title : String
  url : String
deriving Repr, DecidableEq

/-- The summary object written to `github_issues_summary.json`
(lines 285–289). -/
structure Summary where
  project : ProjectInfo
  created_issues : List CreatedIssue
  milestone_urls : List String
deriving Repr, DecidableEq

/-- `tasks_data.get(key, dflt)` for the string-valued keys of the dict
built at lines 17–22; both keys are always present there. -/
def TasksData.getStrD (td : TasksData) (key dflt : String) : String :=
  if key = "project" then td.project
  else if key = "owner" then td.owner
  else dflt

/-- Lines 248–251: `project_info` with the `'Unknown Project'` /
`'Unknown Owner'` defaults of the dict lookups. -/
def project_info_of (td : TasksData) : ProjectInfo :=
  { project := td.getStrD "project" "Unknown Project"
    owner := td.getStrD "owner" "Unknown Owner" }

/-- Lines 257–289: the loops of `main` after extraction: walk the phases in
order and their tasks in order, submitting each task and appending a
`CreatedIssue` on success; then submit the milestones; assemble the summary
object (the `'milestones' in tasks_data` tests at lines 275, 281 and 288
are always true because the key is initialised at line 21). -/
def runBatch (gh : GhOracle) (td : TasksData) : Summary :=
  let project_info := project_info_of td
  let created_issues :=
    td.phases.foldl
      (fun acc phase =>
        phase.tasks.foldl
          (fun acc2 task =>
            match create_github_issue gh task phase.name project_info with
            | some issue_url =>
              acc2 ++ [{ task_id := task.id, title := task.title, url := issue_url }]
            | none => acc2) acc) []
  let milestone_urls := create_milestone_issues gh td.milestones project_info
  { project := project_info
    created_issues := created_issues
    milestone_urls := milestone_urls }

/-- The observable outcome of one process run: the exit status, the final
content of `github_issues_summary.json`, and the fatal error message
printed by `parse_yaml_tasks` (if any). -/
structure RunResult where
  exitCode : Nat
  summaryFile : Option Summary
  fatalLog : Option String
deriving Repr, DecidableEq

/-- Lines 244–296: the whole process.  `file` is the result of reading
`tasks.yaml`; `priorSummary` is the previous content of
`github_issues_summary.json` (the file is opened with mode `'w'`, so a
completed run replaces it wholesale).  A fatal extraction error exits with
status 1 before anything is written; otherwise the run completes, writes
the summary and exits 0. -/
def main (gh : GhOracle) (file : Except String String) (priorSummary : Option Summary) :
    RunResult :=
  match parse_yaml_tasks file with
  | .error msg => { exitCode := 1, summaryFile := priorSummary, fatalLog := some msg }
  | .ok td => { exitCode := 0, summaryFile := some (runBatch gh td), fatalLog := none }

/-! ## Candidate records and declarative characterisations -/

/-- The candidate task records of a tasks section: one per block of the
split on `\n      - id:`, skipping block 0 (which the loop at line 64–66
never examines). -/
def taskCandidates (tasks_content : String) : List Task :=
  ((pySplitOn tasks_content "\n      - id:").drop 1).map parseTaskBlock

/-- The candidate phase records of a phases section (split on
`\n  - name:`, block 0 skipped). -/
def phaseCandidates (phases_content : String) : List Phase :=
  ((pySplitOn phases_content "\n  - name:").drop 1).map parsePhaseBlock

/-- The candidate milestone records of a milestones section (split on
`\n  - id:`, block 0 skipped). -/
def milestoneCandidates (milestones_content : String) : List Milestone :=
  ((pySplitOn milestones_content "\n  - id:").drop 1).map parseMilestoneBlock

/-- The task `CreatedIssue` sequence as the spec describes it (§4.4):
walk the phases in document order, within each phase its tasks in document
order, keeping a record exactly for the successful submissions. -/
def specCreatedIssues (gh : GhOracle) (td : TasksData) : List CreatedIssue :=
  td.phases.flatMap (fun phase =>
    phase.tasks.filterMap (fun task =>
      (create_github_issue gh task phase.name (project_info_of td)).map
        (fun url => { task_id := task.id, title := task.title, url := url })))

/-- The milestone URL sequence as the spec describes it: the stripped
stdout of each successful milestone submission, in document order. -/
def specMilestoneUrls (gh : GhOracle) (td : TasksData) : List String :=
  td.milestones.filterMap (fun m =>
    match gh (milestoneIssueCmd m (project_info_of td)) with
    | .ok stdout => some (pyStrip stdout)
    | .err _ => none)

/-- The summary object as the spec describes it (§4.4 step 4 / §6):
ProjectContext, the ordered successful task records, the ordered successful
milestone URLs. -/
def specSummary (gh : GhOracle) (td : TasksData) : Summary :=
  { project := project_info_of td
    created_issues := specCreatedIssues gh td
    milestone_urls := specMilestoneUrls gh td }

/-- The fixed marker table of the if/elif chain at lines 156–171, in
source order. -/
def epicLabelTable : List (String × List String) :=
  [("Epic 1", ["epic-1", "control-plane", "api"]),
   ("Epic 2", ["epic-2", "node-runtime", "connectors"]),
   ("Epic 3", ["epic-3", "agent-definition", "deployment"]),
   ("Epic 4", ["epic-4", "observability", "monitoring"]),
   ("Epic 5", ["epic-5", "ui", "frontend"]),
   ("Epic 6", ["epic-6", "infrastructure", "ci-cd"]),
   ("Epic 7", ["epic-7", "testing", "validation"]),
   ("Epic 8", ["epic-8", "documentation", "demo"])]

/-- First-match-wins reading of the label selection: the base label plus
the trio of the first marker (in table order) that is a substring of the
phase name. -/
def taskLabelsFirstMatch (phase_name : String) : List String :=
  "task" ::
    (match epicLabelTable.find? (fun e => strContains phase_name e.1) with
    | some e => e.2
    | none => [])

/-- The milestone body template with the overview section text as an
explicit argument (used to state that the overview section is constant). -/
def milestoneBodyWithOverview (overview : String) (m : Milestone)
    (project_info : ProjectInfo) : String :=
  "## Milestone Overview\n" ++ overview ++
  "\n\n## Deliverables\n" ++ m.deliverables ++
  "\n\n## Target Date\n**" ++ m.date ++
  "**\n\n## Project Context\n- **Project:** " ++ project_info.project ++
  "\n- **Owner:** " ++ project_info.owner ++
  "\n- **Milestone ID:** " ++ m.id ++
  "\n\n## Completion Criteria\n- [ ] All related tasks completed\n- [ ] Deliverables validated\n- [ ] Documentation updated\n- [ ] Demo/review completed\n\n---\n*This milestone was auto-generated from tasks.yaml*\n"

/-- A three-task extracted model for the failure-isolation scenario of
§8.5 of the spec. -/
def sampleTasksData : TasksData :=
  { project := "Demo", owner := "Alice",
    phases := [{ name := "Phase A", goal := "G",
                 tasks := [{ id := "T1", title := "First", description := "D1" },
                           { id := "T2", title := "Second", description := "D2" },
                           { id := "T3", title := "Third", description := "D3" }] }],
    milestones := [] }

/-- A raw document whose extraction yields exactly the three tasks of
`sampleTasksData` (the filler lines keep the first real record out of the
skipped block 0 of each split). -/
def sampleDoc : String :=
  "project: Demo\nowner: Alice\nphases:\n  filler\n  - name: Phase A\n    goal: G\n    tasks:\n      filler\n      - id: T1\n        title: First\n        description: D1\n      - id: T2\n        title: Second\n        description: D2\n      - id: T3\n        title: Third\n        description: D3\n"

/-- An external-command behaviour that exits non-zero exactly on the second
task's submission and succeeds on the others (stdout carries the issue URL
plus a trailing newline, as `gh` prints it). -/
def ghFailSecond : GhOracle := fun cmd =>
  if cmd.title = "[T2] Second" then GhResult.err "boom"
  else if cmd.title = "[T1] First" then GhResult.ok "http://issues/1\n"
  else GhResult.ok "http://issues/3\n"

/-! ## Loop lemmas -/

theorem parseTasks_loop (bs : List String) (acc : List Task) :
    bs.foldl
      (fun acc b =>
        let t := parseTaskBlock b
        if t.id ≠ "" ∧ t.title ≠ "" then acc ++ [t] else acc) acc
    = acc ++ (bs.map parseTaskBlock).filter
        (fun t => decide (t.id ≠ "" ∧ t.title ≠ "")) := by
  induction bs generalizing acc with
  | nil => simp
  | cons b bs ih =>
    rw [List.foldl_cons, ih]
    by_cases h : (parseTaskBlock b).id ≠ "" ∧ (parseTaskBlock b).title ≠ "" <;>
      simp [h, List.filter_cons]

theorem parsePhases_loop (bs : List String) (acc : List Phase) :
    bs.foldl
      (fun acc b =>
        let p := parsePhaseBlock b
        if p.name ≠ "" then acc ++ [p] else acc) acc
    = acc ++ (bs.map parsePhaseBlock).filter (fun p => decide (p.name ≠ "")) := by
  induction bs generalizing acc with
  | nil => simp
  | cons b bs ih =>
    rw [List.foldl_cons, ih]
    by_cases h : (parsePhaseBlock b).name ≠ "" <;> simp [h, List.filter_cons]

theorem parseMilestones_loop (bs : List String) (acc : List Milestone) :
    bs.foldl
      (fun acc b =>
        let m := parseMilestoneBlock b
        if m.id ≠ "" ∧ m.title ≠ "" then acc ++ [m] else acc) acc
    = acc ++ (bs.map parseMilestoneBlock).filter
        (fun m => decide (m.id ≠ "" ∧ m.title ≠ "")) := by
  induction bs generalizing acc with
  | nil => simp
  | cons b bs ih =>
    rw [List.foldl_cons, ih]
    by_cases h : (parseMilestoneBlock b).id ≠ "" ∧ (parseMilestoneBlock b).title ≠ "" <;>
      simp [h, List.filter_cons]

theorem tasks_loop (gh : GhOracle) (project_info : ProjectInfo) (pname : String)
    (ts : List Task) (acc : List CreatedIssue) :
    ts.foldl
      (fun acc2 task =>
        match create_github_issue gh task pname project_info with
        | some issue_url =>
          acc2 ++ [{ task_id := task.id, title := task.title, url := issue_url }]
        | none => acc2) acc
    = acc ++ ts.filterMap (fun task =>
        (create_github_issue gh task pname project_info).map
          (fun url => { task_id := task.id, title := task.title, url := url })) := by
  induction ts generalizing acc with
  | nil => simp
  | cons t ts ih =>
    rw [List.foldl_cons, ih]
    cases h : create_github_issue gh t pname project_info <;> simp [h]

theorem phases_loop (gh : GhOracle) (project_info : ProjectInfo)
    (ps : List Phase) (acc : List CreatedIssue) :
    ps.foldl
      (fun acc phase =>
        phase.tasks.foldl
          (fun acc2 task =>
            match create_github_issue gh task phase.name project_info with
            | some issue_url =>
              acc2 ++ [{ task_id := task.id, title := task.title, url := issue_url }]
            | none => acc2) acc) acc
    = acc ++ ps.flatMap (fun phase =>
        phase.tasks.filterMap (fun task =>
          (create_github_issue gh task phase.name project_info).map
            (fun url => { task_id := task.id, title := task.title, url := url }))) := by
  induction ps generalizing acc with
  | nil => simp
  | cons p ps ih =>
    rw [List.foldl_cons, ih]
    simp [tasks_loop, List.append_assoc]

theorem milestones_loop (gh : GhOracle) (project_info : ProjectInfo)
    (ms : List Milestone) (acc : List String) :
    ms.foldl
      (fun acc m =>
        match gh (milestoneIssueCmd m project_info) with
        | .ok stdout => acc ++ [pyStrip stdout]
        | .err _ => acc) acc
    = acc ++ ms.filterMap (fun m =>
        match gh (milestoneIssueCmd m project_info) with
        | .ok stdout => some (pyStrip stdout)
        | .err _ => none) := by
  induction ms generalizing acc with
  | nil => simp
  | cons m ms ih =>
    rw [List.foldl_cons, ih]
    cases h : gh (milestoneIssueCmd m project_info) <;> simp [h]

theorem runBatch_eq_spec (gh : GhOracle) (td : TasksData) :
    runBatch gh td = specSummary gh td := by
  simp only [runBatch, specSummary, specCreatedIssues, specMilestoneUrls,
    create_milestone_issues, phases_loop, milestones_loop, List.nil_append]

/-! ## Claim theorems -/

/-- C1: a failed submission (non-zero exit of the external command) makes
the Submission Client return `none`, the Orchestrator skips the record and
continues, the record is simply absent from the summary, and the process
exits with status 0; in the concrete 3-task run where only the second
submission fails, the summary holds exactly the records of tasks 1 and 3
(also run end-to-end from the raw document `sampleDoc`, with a stale prior
summary file that the run replaces). -/
theorem failure_isolation :
    (∀ gh content prior, (main gh (.ok content) prior).exitCode = 0) ∧
    (∀ gh td, (runBatch gh td).created_issues = specCreatedIssues gh td) ∧
    create_github_issue ghFailSecond
      { id := "T2", title := "Second", description := "D2" } "Phase A"
      { project := "Demo", owner := "Alice" } = none ∧
    (runBatch ghFailSecond sampleTasksData).created_issues
      = [{ task_id := "T1", title := "First", url := "http://issues/1" },
         { task_id := "T3", title := "Third", url := "http://issues/3" }] ∧
    main ghFailSecond (.ok sampleDoc)
        (some { project := { project := "Old", owner := "Old" },
                created_issues := [], milestone_urls := ["stale"] })
      = { exitCode := 0,
          summaryFile := some
            { project := { project := "Demo", owner := "Alice" },
              created_issues :=
                [{ task_id := "T1", title := "First", url := "http://issues/1" },
                 { task_id := "T3", title := "Third", url := "http://issues/3" }],
              milestone_urls := [] },
          fatalLog := none } := by
  refine ⟨fun gh content prior => rfl,
    fun gh td => congrArg Summary.created_issues (runBatch_eq_spec gh td),
    ?_, ?_, ?_⟩
  · decide
  · rw [runBatch_eq_spec]
    decide
  · decide

/-- C2: a candidate task or milestone record is retained in the extracted
model iff both its id and its title are non-empty after extraction;
missing optional fields (`description`, `deliverables`, `date`) default to
the empty string. -/
theorem record_retention :
    (∀ c, parseTasksContent c
        = (taskCandidates c).filter (fun t => decide (t.id ≠ "" ∧ t.title ≠ ""))) ∧
    (∀ c, parseMilestonesContent c
        = (milestoneCandidates c).filter (fun m => decide (m.id ≠ "" ∧ m.title ≠ ""))) ∧
    (∀ b, pySearchDescription b = none → (parseTaskBlock b).description = "") ∧
    (∀ b, pySearchKeyVal "deliverables" b = none →
      (parseMilestoneBlock b).deliverables = "") ∧
    (∀ b, pySearchKeyVal "date" b = none → (parseMilestoneBlock b).date = "") := by
  refine ⟨fun c => ?_, fun c => ?_, fun b h => ?_, fun b h => ?_, fun b h => ?_⟩
  · unfold parseTasksContent
    rw [parseTasks_loop]
    simp [taskCandidates]
  · unfold parseMilestonesContent
    rw [parseMilestones_loop]
    simp [milestoneCandidates]
  · simp [parseTaskBlock, matchGroupD, h]
  · simp [parseMilestoneBlock, matchGroupD, h]
  · simp [parseMilestoneBlock, matchGroupD, h]

/-- C2 witness: concrete blocks with a missing description /
deliverables / date, evaluated through the theorem. -/
theorem record_retention_witness :
    (pySearchDescription " T1\n        title: A" = none ∧
      (parseTaskBlock " T1\n        title: A").description = "") ∧
    (pySearchKeyVal "deliverables" " M1\n    title: B" = none ∧
      (parseMilestoneBlock " M1\n    title: B").deliverables = "") ∧
    (pySearchKeyVal "date" " M1\n    title: B" = none ∧
      (parseMilestoneBlock " M1\n    title: B").date = "") :=
  ⟨⟨by decide, record_retention.2.2.1 " T1\n        title: A" (by decide)⟩,
   ⟨by decide, record_retention.2.2.2.1 " M1\n    title: B" (by decide)⟩,
   ⟨by decide, record_retention.2.2.2.2 " M1\n    title: B" (by decide)⟩⟩

/-- C3 counterexample: the phase name `"Epic 1 Epic 3"` contains the
substring `"Epic 3"`, yet its label set is the epic-1 trio, not
`{task, epic-3, agent-definition, deployment}` — the earlier branch of the
if/elif chain wins. -/
theorem epic3_label_counterexample :
    strContains "Epic 1 Epic 3" "Epic 3" = true ∧
    taskLabels "Epic 1 Epic 3" = ["task", "epic-1", "control-plane", "api"] ∧
    ¬ "epic-3" ∈ taskLabels "Epic 1 Epic 3" := by
  decide

/-- C3 (amended): for a phase name containing `"Epic 3"` and neither
`"Epic 1"` nor `"Epic 2"`, the label set is exactly
`{task, epic-3, agent-definition, deployment}`; for a phase name containing
no recognized epic marker it is exactly `{task}`; every milestone gets the
label set `{milestone, epic}`. -/
theorem epic3_label_mapping :
    (∀ pname, strContains pname "Epic 3" = true → strContains pname "Epic 1" = false →
      strContains pname "Epic 2" = false →
      taskLabels pname = ["task", "epic-3", "agent-definition", "deployment"]) ∧
    (∀ pname, strContains pname "Epic 1" = false → strContains pname "Epic 2" = false →
      strContains pname "Epic 3" = false → strContains pname "Epic 4" = false →
      strContains pname "Epic 5" = false → strContains pname "Epic 6" = false →
      strContains pname "Epic 7" = false → strContains pname "Epic 8" = false →
      taskLabels pname = ["task"]) ∧
    (∀ m project_info, (milestoneIssueCmd m project_info).labels = "milestone,epic") := by
  refine ⟨fun pname h3 h1 h2 => ?_,
    fun pname h1 h2 h3 h4 h5 h6 h7 h8 => ?_,
    fun m project_info => rfl⟩
  · simp [taskLabels, h1, h2, h3]
  · simp [taskLabels, h1, h2, h3, h4, h5, h6, h7, h8]

/-- C3 witness: the amended statement applied to concrete phase names. -/
theorem epic3_label_mapping_witness :
    taskLabels "Phase Epic 3 work" = ["task", "epic-3", "agent-definition", "deployment"] ∧
    taskLabels "Setup" = ["task"] ∧
    (milestoneIssueCmd { id := "M1", title := "T", deliverables := "", date := "" }
      { project := "P", owner := "O" }).labels = "milestone,epic" :=
  ⟨epic3_label_mapping.1 "Phase Epic 3 work" (by decide) (by decide) (by decide),
   epic3_label_mapping.2.1 "Setup" (by decide) (by decide) (by decide) (by decide)
     (by decide) (by decide) (by decide) (by decide),
   epic3_label_mapping.2.2
     { id := "M1", title := "T", deliverables := "", date := "" }
     { project := "P", owner := "O" }⟩

/-- C4: the issue title is `"[<id>] <title>"` for every task and
`"[MILESTONE] <title>"` for every milestone, with the two concrete examples
from the spec. -/
theorem title_format :
    (∀ t pname project_info,
      (taskIssueCmd t pname project_info).title = "[" ++ t.id ++ "] " ++ t.title) ∧
    (taskIssueCmd { id := "E2-T4", title := "Build connector", description := "" }
      "Epic 2" { project := "P", owner := "O" }).title = "[E2-T4] Build connector" ∧
    (∀ m project_info,
      (milestoneIssueCmd m project_info).title = "[MILESTONE] " ++ m.title) ∧
    (milestoneIssueCmd { id := "M1", title := "Phase 1 complete", deliverables := "", date := "" }
      { project := "P", owner := "O" }).title = "[MILESTONE] Phase 1 complete" := by
  exact ⟨fun t pname project_info => rfl, by decide, fun m project_info => rfl, by decide⟩

/-- C5: when the input document cannot be read, the process exits with a
non-zero status, prints a human-readable error message, and the summary
file is left untouched — for every prior state and every behaviour of the
external command. -/
theorem fatal_missing_input :
    ∀ gh e prior,
      (main gh (.error e) prior).exitCode ≠ 0 ∧
      (main gh (.error e) prior).summaryFile = prior ∧
      (main gh (.error e) prior).fatalLog = some ("Error loading tasks file: " ++ e) := by
  intro gh e prior
  refine ⟨?_, rfl, rfl⟩
  simp [main, parse_yaml_tasks]

/-- C6: a completed run writes (overwrites, independently of the prior file
content) a summary holding the ProjectContext, the ordered successful task
records in document order, and the ordered successful milestone URLs in
document order. -/
theorem summary_persistence :
    ∀ gh content prior,
      main gh (.ok content) prior
        = { exitCode := 0,
            summaryFile := some (specSummary gh (parseContent content)),
            fatalLog := none } := by
  intro gh content prior
  simp [main, parse_yaml_tasks, runBatch_eq_spec]

/-- C7: a candidate phase is retained iff its name is non-empty; a named
phase with zero tasks is kept, and a nameless phase disappears together
with the tasks parsed inside it. -/
theorem phase_retention :
    (∀ c, parsePhasesContent c
        = (phaseCandidates c).filter (fun p => decide (p.name ≠ ""))) ∧
    parsePhasesContent "x\n  - name: P\n    goal: g"
      = [{ name := "P", goal := "g", tasks := [] }] ∧
    parsePhasesContent "x\n  - name:\n    tasks:\n      x\n      - id: T9\n        title: Q"
      = [] := by
  refine ⟨fun c => ?_, by decide, by decide⟩
  unfold parsePhasesContent
  rw [parsePhases_loop]
  simp [phaseCandidates]

/-- C8: the epic lookup is an ordered first-match-wins substring test over
the markers Epic 1 … Epic 8; in particular `"Epic 10"` contains the
substring `"Epic 1"` and gets the epic-1 trio. -/
theorem label_first_match_wins :
    (∀ pname, taskLabels pname = taskLabelsFirstMatch pname) ∧
    strContains "Epic 10" "Epic 1" = true ∧
    taskLabels "Deploy Epic 10" = ["task", "epic-1", "control-plane", "api"] := by
  refine ⟨fun pname => ?_, by decide, by decide⟩
  simp only [taskLabels, taskLabelsFirstMatch, epicLabelTable]
  cases h1 : strContains pname "Epic 1" <;>
    cases h2 : strContains pname "Epic 2" <;>
    cases h3 : strContains pname "Epic 3" <;>
    cases h4 : strContains pname "Epic 4" <;>
    cases h5 : strContains pname "Epic 5" <;>
    cases h6 : strContains pname "Epic 6" <;>
    cases h7 : strContains pname "Epic 7" <;>
    cases h8 : strContains pname "Epic 8" <;>
    simp [List.find?, h1, h2, h3, h4, h5, h6, h7, h8]

/-- C9: the milestone record built by the extractor has no `description`
key, so the dict lookup always falls back and the Milestone Overview
section of every formatted milestone body is the fixed placeholder text. -/
theorem milestone_overview_placeholder :
    (∀ m dflt, Milestone.getD m "description" dflt = dflt) ∧
    (∀ m project_info,
      milestoneBody m project_info
        = milestoneBodyWithOverview "Milestone for project phase completion"
            m project_info) := by
  constructor
  · intro m dflt
    simp [Milestone.getD]
  · intro m project_info
    simp [milestoneBody, milestoneBodyWithOverview, Milestone.getD]

/-- C10: the extractor always populates both `project` and `owner` (with
empty strings when the line is absent), so the `'Unknown Project'` /
`'Unknown Owner'` fallbacks in `main` are unreachable, and a document
lacking a `project:` or `owner:` line yields the empty string in the
ProjectContext. -/
theorem project_owner_no_fallback :
    (∀ content, project_info_of (parseContent content)
        = { project := (parseContent content).project,
            owner := (parseContent content).owner }) ∧
    (∀ content, pySearchKeyVal "project" content = none →
      (project_info_of (parseContent content)).project = "") ∧
    (∀ content, pySearchKeyVal "owner" content = none →
      (project_info_of (parseContent content)).owner = "") := by
  refine ⟨fun content => rfl, fun content h => ?_, fun content h => ?_⟩
  · simp [project_info_of, TasksData.getStrD, parseContent, matchGroupD, h]
  · simp [project_info_of, TasksData.getStrD, parseContent, matchGroupD, h]

/-- C10 witness: concrete documents lacking the `project:` (resp.
`owner:`) line. -/
theorem project_owner_no_fallback_witness :
    (pySearchKeyVal "project" "owner: Bob" = none ∧
      (project_info_of (parseContent "owner: Bob")).project = "") ∧
    (pySearchKeyVal "owner" "project: X" = none ∧
      (project_info_of (parseContent "project: X")).owner = "") :=
  ⟨⟨by decide, project_owner_no_fallback.2.1 "owner: Bob" (by decide)⟩,
   ⟨by decide, project_owner_no_fallback.2.2 "project: X" (by decide)⟩⟩

end CreateIssues
